import Mathlib

/-!
Verification of the core data logic of the SpaceX launch-records dashboard
(`spacex-dash-app.py`): the dataset model, the pie-chart aggregation
(`update_pie`), the scatter filter (`update_scatter`), and the payload
bounds computed at load time (`min_payload` / `max_payload`).

The embedding follows the Python source:
* a pandas row becomes a `LaunchRecord`; the loaded frame `spacex_df` is a
  `List LaunchRecord` in row order;
* boolean-mask filtering (`df[mask]`) is `List.filter` (order preserving);
* `df.groupby(k).size().reset_index(...)` is: distinct keys sorted
  ascending (pandas' default `sort=True`), each paired with its count;
* Python `int()` on a non-negative number is the floor (truncation toward
  zero in general), modelled by `pyInt`;
* payload masses are rationals (CSV numbers), slider endpoints are
  rationals.
-/

/-- One row of the launch dataset: `Launch Site`, `Payload Mass (kg)`,
`class` (1 = success, 0 = failure) and `Booster Version Category`. -/
structure LaunchRecord where
  launchSite : String
  payloadMassKg : ℚ
  outcomeClass : Nat
  boosterVersionCategory : String
deriving DecidableEq

/-- The scatter callback's data step: keep rows with
`low ≤ Payload Mass (kg) ≤ high`, then, when the selected site is not the
`ALL` sentinel, keep rows of that site (source lines 359-366). -/
def update_scatter (spacex_df : List LaunchRecord) (entered_site : String)
    (low high : ℚ) : List LaunchRecord :=
  let dff := spacex_df.filter fun r =>
    decide (low ≤ r.payloadMassKg) && decide (r.payloadMassKg ≤ high)
  if entered_site ≠ "ALL" then
    dff.filter fun r => r.launchSite == entered_site
  else
    dff

/-- Membership characterization of the scatter filter's output. -/
lemma mem_update_scatter (ds : List LaunchRecord) (site : String)
    (low high : ℚ) (r : LaunchRecord) :
    r ∈ update_scatter ds site low high ↔
      r ∈ ds ∧ low ≤ r.payloadMassKg ∧ r.payloadMassKg ≤ high ∧
        (site = "ALL" ∨ r.launchSite = site) := by
  by_cases h : site = "ALL"
  · simp [update_scatter, h, List.mem_filter, decide_eq_true_iff, and_assoc]
  · simp [update_scatter, h, List.mem_filter, decide_eq_true_iff, and_assoc]
    tauto

/-- C1: every record in the scatter filter's output lies in the closed
payload interval `[low, high]` and, when the selected site is not the
`ALL` sentinel, has that launch site; moreover in the degenerate case
`low = high` the output consists exactly of the dataset records whose
payload equals that value and whose site matches. -/
theorem update_scatter_range_site_sound (ds : List LaunchRecord)
    (site : String) (low high : ℚ) :
    (∀ r ∈ update_scatter ds site low high,
        low ≤ r.payloadMassKg ∧ r.payloadMassKg ≤ high ∧
          (site = "ALL" ∨ r.launchSite = site)) ∧
    (low = high → ∀ r : LaunchRecord,
        r ∈ update_scatter ds site low high ↔
          r ∈ ds ∧ r.payloadMassKg = low ∧
            (site = "ALL" ∨ r.launchSite = site)) := by
  constructor
  · intro r hr
    exact ((mem_update_scatter ds site low high r).1 hr).2
  · rintro rfl r
    rw [mem_update_scatter]
    constructor
    · rintro ⟨hmem, h1, h2, h3⟩
      exact ⟨hmem, le_antisymm h2 h1, h3⟩
    · rintro ⟨hmem, heq, h3⟩
      exact ⟨hmem, le_of_eq heq.symm, le_of_eq heq, h3⟩

/-- A small concrete dataset following the spec's worked example, with the
real site identifiers of the dropdown. -/
def exampleDf : List LaunchRecord :=
  [⟨"KSC LC-39A", 500, 1, "v1.0"⟩,
   ⟨"KSC LC-39A", 900, 0, "v1.0"⟩,
   ⟨"CCAFS LC-40", 500, 1, "v1.1"⟩]

/-- Witness for C1 at a concrete dataset, site and degenerate range. -/
theorem update_scatter_range_site_sound_witness :
    ((⟨"KSC LC-39A", 500, 1, "v1.0"⟩ : LaunchRecord) ∈
        update_scatter exampleDf "KSC LC-39A" 500 500 ↔
      (⟨"KSC LC-39A", 500, 1, "v1.0"⟩ : LaunchRecord) ∈ exampleDf ∧
        (500 : ℚ) = 500 ∧
        ("KSC LC-39A" = "ALL" ∨ "KSC LC-39A" = "KSC LC-39A")) :=
  (update_scatter_range_site_sound exampleDf "KSC LC-39A" 500 500).2 rfl _

/-- The label column added for the single-site pie:
`df['class'].map({1: 'Success', 0: 'Failure'})` (a missing key yields a
missing value, written here as the string `NaN`; dataset classes are
always 0 or 1). -/
def classLabel (c : Nat) : String :=
  if c == 1 then "Success" else if c == 0 then "Failure" else "NaN"

/-- Pandas `df.groupby(k).size().reset_index(...)`: the distinct key
values in ascending order (pandas' default `sort=True`), each paired with
the number of rows carrying it. -/
def groupSize {α : Type} [DecidableEq α] [LinearOrder α]
    (keys : List α) : List (α × Nat) :=
  (List.insertionSort (fun a b => a ≤ b) keys.dedup).map fun k => (k, keys.count k)

/-- The grouping keys of the all-sites pie: the launch sites of the
successful records, in row order (source line 326, before grouping). -/
def successSiteKeys (ds : List LaunchRecord) : List String :=
  (ds.filter fun r => r.outcomeClass == 1).map fun r => r.launchSite

/-- The grouping keys of the single-site pie: the outcome classes of the
records at the selected site, in row order (source line 334, before
grouping). -/
def siteOutcomeKeys (ds : List LaunchRecord) (site : String) : List Nat :=
  (ds.filter fun r => r.launchSite == site).map fun r => r.outcomeClass

/-- The pie callback's data step (source lines 319-341): for the `ALL`
sentinel, successful launches counted per site; otherwise, records of the
selected site counted per outcome class, with classes relabelled
`Success` / `Failure`. -/
def update_pie (ds : List LaunchRecord) (entered_site : String) :
    List (String × Nat) :=
  if entered_site = "ALL" then
    groupSize (successSiteKeys ds)
  else
    (groupSize (siteOutcomeKeys ds entered_site)).map fun g =>
      (classLabel g.1, g.2)

/-- The group counts of `groupSize` sum to the number of grouped rows. -/
lemma groupSize_snd_sum {α : Type} [DecidableEq α] [LinearOrder α]
    (keys : List α) :
    ((groupSize keys).map Prod.snd).sum = keys.length := by
  unfold groupSize
  rw [List.map_map]
  have hperm :
      List.Perm
        ((List.insertionSort (fun a b => a ≤ b) keys.dedup).map
          (fun k => keys.count k))
        (keys.dedup.map fun k => keys.count k) :=
    (List.perm_insertionSort _ _).map _
  calc ((List.insertionSort (fun a b => a ≤ b) keys.dedup).map
          (Prod.snd ∘ fun k => (k, keys.count k))).sum
      = ((List.insertionSort (fun a b => a ≤ b) keys.dedup).map
          (fun k => keys.count k)).sum := rfl
    _ = (keys.dedup.map fun k => keys.count k).sum := hperm.sum_eq
    _ = keys.length := List.sum_map_count_dedup_eq_length keys

/-- The first components emitted by `groupSize` are exactly the distinct
key values. -/
lemma mem_groupSize_fst {α : Type} [DecidableEq α] [LinearOrder α]
    (keys : List α) (k : α) :
    k ∈ (groupSize keys).map Prod.fst ↔ k ∈ keys := by
  unfold groupSize
  rw [List.map_map]
  have : (Prod.fst ∘ fun k : α => (k, keys.count k)) = id := rfl
  rw [this, List.map_id]
  rw [(List.perm_insertionSort (fun a b : α => a ≤ b) keys.dedup).mem_iff]
  exact List.mem_dedup

/-- Each group of `groupSize` pairs a key with the count of that key. -/
lemma mem_groupSize {α : Type} [DecidableEq α] [LinearOrder α]
    (keys : List α) (g : α × Nat) (hg : g ∈ groupSize keys) :
    g.2 = keys.count g.1 := by
  unfold groupSize at hg
  obtain ⟨k, _, rfl⟩ := List.mem_map.1 hg
  rfl

/-- C2: in the all-sites pie the slice counts sum to the number of
successful records (`class = 1`) in the dataset, and each slice counts
only the successful records of its own site, so failures contribute to no
slice. -/
theorem update_pie_all_sum (ds : List LaunchRecord) :
    (((update_pie ds "ALL").map Prod.snd).sum =
        ds.countP fun r => r.outcomeClass == 1) ∧
    ∀ g ∈ update_pie ds "ALL",
      g.2 = ds.countP fun r => r.launchSite == g.1 && r.outcomeClass == 1 := by
  constructor
  · rw [update_pie, if_pos rfl, groupSize_snd_sum, successSiteKeys,
      List.length_map, ← List.countP_eq_length_filter]
  · intro g hg
    rw [update_pie, if_pos rfl] at hg
    rw [mem_groupSize _ g hg, successSiteKeys, List.count_eq_countP,
      List.countP_map, List.countP_filter]
    rfl

/-- C3: for a concrete site selection (not the `ALL` sentinel), the
single-site pie's outcome counts sum to the number of records at that
site. -/
theorem update_pie_site_sum (ds : List LaunchRecord) (s : String)
    (hs : s ≠ "ALL") (_hmem : s ∈ ds.map fun r => r.launchSite) :
    ((update_pie ds s).map Prod.snd).sum =
      ds.countP fun r => r.launchSite == s := by
  rw [update_pie, if_neg hs, List.map_map]
  have : (Prod.snd ∘ fun g : Nat × Nat => (classLabel g.1, g.2)) =
      Prod.snd := rfl
  rw [this, groupSize_snd_sum, siteOutcomeKeys, List.length_map,
    ← List.countP_eq_length_filter]

/-- Witness for C3 at a concrete dataset and site. -/
theorem update_pie_site_sum_witness :
    "KSC LC-39A" ≠ "ALL" ∧
    "KSC LC-39A" ∈ exampleDf.map (fun r => r.launchSite) ∧
    ((update_pie exampleDf "KSC LC-39A").map Prod.snd).sum =
      exampleDf.countP fun r => r.launchSite == "KSC LC-39A" :=
  ⟨by decide, by decide,
    update_pie_site_sum exampleDf "KSC LC-39A" (by decide) (by decide)⟩

/-- C4: a site whose records contain no success does not occur among the
slice names of the all-sites pie (it is omitted, not zero-filled). -/
theorem update_pie_all_omits_zero_success_site (ds : List LaunchRecord)
    (s : String) (h : ∀ r ∈ ds, r.launchSite = s → r.outcomeClass ≠ 1) :
    s ∉ (update_pie ds "ALL").map Prod.fst := by
  rw [update_pie, if_pos rfl]
  intro hmem
  obtain ⟨r, hr, hsite⟩ :=
    List.mem_map.1 ((mem_groupSize_fst (successSiteKeys ds) s).1 hmem)
  have hf := List.mem_filter.1 hr
  exact h r hf.1 hsite (by simpa using hf.2)

/-- Witness for C4: in the example dataset `CCAFS SLC-40` has no records
at all, hence no successes, and indeed does not appear in the pie. -/
theorem update_pie_all_omits_zero_success_site_witness :
    (∀ r ∈ exampleDf, r.launchSite = "CCAFS SLC-40" → r.outcomeClass ≠ 1) ∧
    "CCAFS SLC-40" ∉ (update_pie exampleDf "ALL").map Prod.fst :=
  ⟨by decide,
    update_pie_all_omits_zero_success_site exampleDf "CCAFS SLC-40"
      (by decide)⟩

/-- The ordering the spec predicts for pie groups: the distinct grouping
keys in first-seen (insertion) order within the filtered rows. Stated
from the spec's words, for comparison against the source's grouping. -/
def firstSeenKeys {α : Type} [DecidableEq α] : List α → List α
  | [] => []
  | k :: ks => k :: (firstSeenKeys ks).filter fun x => !(x == k)

/-- A dataset whose successful records meet the sites in descending
alphabetical order, so first-seen order and sorted order disagree. -/
def orderDf : List LaunchRecord :=
  [⟨"KSC LC-39A", 1000, 1, "v1.0"⟩,
   ⟨"CCAFS LC-40", 2000, 1, "v1.1"⟩]

/-- The concrete string comparisons needed to run the insertion sort on
`orderDf`'s site names. -/
lemma ccafs_le_ksc : ("CCAFS LC-40" : String) ≤ "KSC LC-39A" := by
  rw [String.le_iff_toList_le]
  decide

lemma not_ksc_le_ccafs : ¬ ("KSC LC-39A" : String) ≤ "CCAFS LC-40" := by
  rw [String.le_iff_toList_le]
  decide

/-- Counterexample to C6: on `orderDf` the all-sites pie emits its groups
in ascending key order (pandas `groupby` sorts keys by default), not in
the first-seen order of the grouping key that the claim states. -/
theorem update_pie_order_counterexample :
    (update_pie orderDf "ALL").map Prod.fst ≠
      firstSeenKeys (successSiteKeys orderDf) := by
  have h1 : (update_pie orderDf "ALL").map Prod.fst =
      ["CCAFS LC-40", "KSC LC-39A"] := by
    rw [update_pie, if_pos rfl]
    have hdedup : (successSiteKeys orderDf).dedup =
        ["KSC LC-39A", "CCAFS LC-40"] := by decide
    rw [groupSize, hdedup]
    rw [show List.insertionSort (fun a b : String => a ≤ b)
          ["KSC LC-39A", "CCAFS LC-40"] = ["CCAFS LC-40", "KSC LC-39A"] by
      simp only [List.insertionSort, List.orderedInsert,
        if_neg not_ksc_le_ccafs]]
    decide
  have h2 : firstSeenKeys (successSiteKeys orderDf) =
      ["KSC LC-39A", "CCAFS LC-40"] := by decide
  rw [h1, h2]
  decide

/-- `classLabel` is monotone on lists of outcome classes drawn from
`{0, 1}`: `Failure` (class 0) sorts before `Success` (class 1). -/
lemma sorted_map_classLabel (l : List Nat)
    (h01 : ∀ x ∈ l, x = 0 ∨ x = 1)
    (hs : List.Sorted (fun a b : Nat => a ≤ b) l) :
    List.Sorted (fun a b : String => a ≤ b) (l.map classLabel) := by
  have hFS : ("Failure" : String) ≤ "Success" := by
    rw [String.le_iff_toList_le]
    decide
  induction l with
  | nil => simp
  | cons a l ih =>
    rw [List.map_cons, List.sorted_cons]
    rw [List.sorted_cons] at hs
    obtain ⟨ha, hl⟩ := hs
    refine ⟨?_, ih (fun x hx => h01 x (List.mem_cons_of_mem _ hx)) hl⟩
    intro b hb
    obtain ⟨x, hx, rfl⟩ := List.mem_map.1 hb
    have hax := ha x hx
    rcases h01 a (List.mem_cons_self _ _) with h0 | h1
    · subst h0
      rcases h01 x (List.mem_cons_of_mem _ hx) with h | h <;> subst h
      · exact le_refl _
      · exact hFS
    · subst h1
      rcases h01 x (List.mem_cons_of_mem _ hx) with h | h
      · subst h
        exact absurd hax (by decide)
      · subst h
        exact le_refl _

/-- The group names of `groupSize` are the sorted distinct keys. -/
lemma groupSize_fst {α : Type} [DecidableEq α] [LinearOrder α]
    (keys : List α) :
    (groupSize keys).map Prod.fst =
      List.insertionSort (fun a b => a ≤ b) keys.dedup := by
  unfold groupSize
  rw [List.map_map]
  exact List.map_id _

/-- C6 as amended: the pie's groups appear in ascending order of the
grouping key (site names alphabetically for the all-sites pie; for a
single site, class 0 = `Failure` before class 1 = `Success`), pandas'
default sorted `groupby` order — not first-seen order. Classes of the
dataset are assumed to be 0 or 1, the dataset invariant. -/
theorem update_pie_groups_sorted (ds : List LaunchRecord) (site : String)
    (hcls : ∀ r ∈ ds, r.outcomeClass = 0 ∨ r.outcomeClass = 1) :
    List.Sorted (fun a b : String => a ≤ b)
      ((update_pie ds site).map Prod.fst) := by
  by_cases h : site = "ALL"
  · rw [h, update_pie, if_pos rfl, groupSize_fst]
    exact List.sorted_insertionSort _ _
  · rw [update_pie, if_neg h, List.map_map]
    have heq : ((groupSize (siteOutcomeKeys ds site)).map
          (Prod.fst ∘ fun g : Nat × Nat => (classLabel g.1, g.2))) =
        ((groupSize (siteOutcomeKeys ds site)).map Prod.fst).map
          classLabel := by
      rw [List.map_map]
      rfl
    rw [heq, groupSize_fst]
    apply sorted_map_classLabel
    · intro x hx
      have hx2 : x ∈ (siteOutcomeKeys ds site).dedup :=
        (List.perm_insertionSort (fun a b : Nat => a ≤ b) _).mem_iff.1 hx
      obtain ⟨r, hr, rfl⟩ :=
        List.mem_map.1 (List.mem_dedup.1 hx2)
      exact hcls r (List.mem_filter.1 hr).1
    · exact List.sorted_insertionSort _ _

/-- Witness for the amended C6 at a concrete dataset and site. -/
theorem update_pie_groups_sorted_witness :
    (∀ r ∈ exampleDf, r.outcomeClass = 0 ∨ r.outcomeClass = 1) ∧
    List.Sorted (fun a b : String => a ≤ b)
      ((update_pie exampleDf "KSC LC-39A").map Prod.fst) :=
  ⟨by decide, update_pie_groups_sorted exampleDf "KSC LC-39A" (by decide)⟩

/-- Python `int()` applied to a number: truncation toward zero (the floor
for non-negative values), as in `int(spacex_df['Payload Mass (kg)'].max())`
on source lines 20-21. -/
def pyInt (q : ℚ) : ℤ := if 0 ≤ q then ⌊q⌋ else -⌊-q⌋

/-- The `Payload Mass (kg)` column of the dataset, in row order. -/
def payloadSeries (ds : List LaunchRecord) : List ℚ :=
  ds.map fun r => r.payloadMassKg

/-- Pandas `Series.max()` over a non-empty column (the empty case is
never reached by the claims below). -/
def seriesMax : List ℚ → ℚ
  | [] => 0
  | q :: qs => qs.foldl max q

/-- Pandas `Series.min()` over a non-empty column. -/
def seriesMin : List ℚ → ℚ
  | [] => 0
  | q :: qs => qs.foldl min q

/-- Source line 20: `max_payload = int(spacex_df['Payload Mass (kg)'].max())`. -/
def max_payload (ds : List LaunchRecord) : ℤ :=
  pyInt (seriesMax (payloadSeries ds))

/-- Source line 21: `min_payload = int(spacex_df['Payload Mass (kg)'].min())`. -/
def min_payload (ds : List LaunchRecord) : ℤ :=
  pyInt (seriesMin (payloadSeries ds))

/-- A left fold of `max` dominates its initial value. -/
lemma le_foldl_max (l : List ℚ) : ∀ a : ℚ, a ≤ l.foldl max a := by
  induction l with
  | nil => intro a; exact le_refl a
  | cons x xs ih => intro a; exact le_trans (le_max_left a x) (ih (max a x))

/-- A left fold of `max` dominates every list element. -/
lemma mem_le_foldl_max (l : List ℚ) (q : ℚ) :
    q ∈ l → ∀ a : ℚ, q ≤ l.foldl max a := by
  induction l with
  | nil => intro hq; cases hq
  | cons x xs ih =>
    intro hq a
    rcases List.mem_cons.1 hq with rfl | hmem
    · exact le_trans (le_max_right a q) (le_foldl_max xs (max a q))
    · exact ih hmem (max a x)

/-- A left fold of `min` is below its initial value. -/
lemma foldl_min_le (l : List ℚ) : ∀ a : ℚ, l.foldl min a ≤ a := by
  induction l with
  | nil => intro a; exact le_refl a
  | cons x xs ih => intro a; exact le_trans (ih (min a x)) (min_le_left a x)

/-- A left fold of `min` is below every list element. -/
lemma foldl_min_le_mem (l : List ℚ) (q : ℚ) :
    q ∈ l → ∀ a : ℚ, l.foldl min a ≤ q := by
  induction l with
  | nil => intro hq; cases hq
  | cons x xs ih =>
    intro hq a
    rcases List.mem_cons.1 hq with rfl | hmem
    · exact le_trans (foldl_min_le xs (min a q)) (min_le_right a q)
    · exact ih hmem (min a x)

/-- Every column entry is at most the column maximum. -/
lemma le_seriesMax (l : List ℚ) (q : ℚ) (hq : q ∈ l) : q ≤ seriesMax l := by
  cases l with
  | nil => cases hq
  | cons x xs =>
    rcases List.mem_cons.1 hq with rfl | hmem
    · exact le_foldl_max xs q
    · exact mem_le_foldl_max xs q hmem x

/-- The column minimum is at most every column entry. -/
lemma seriesMin_le (l : List ℚ) (q : ℚ) (hq : q ∈ l) : seriesMin l ≤ q := by
  cases l with
  | nil => cases hq
  | cons x xs =>
    rcases List.mem_cons.1 hq with rfl | hmem
    · exact foldl_min_le xs q
    · exact foldl_min_le_mem xs q hmem x

/-- Folding `max` over natural-valued rationals yields a natural value. -/
lemma foldl_max_natCast (l : List ℚ)
    (hl : ∀ q ∈ l, ∃ n : ℕ, q = (n : ℚ)) :
    ∀ a : ℕ, ∃ m : ℕ, l.foldl max ((a : ℕ) : ℚ) = ((m : ℕ) : ℚ) := by
  induction l with
  | nil => intro a; exact ⟨a, rfl⟩
  | cons x xs ih =>
    intro a
    obtain ⟨nx, hnx⟩ := hl x (List.mem_cons_self _ _)
    have hmax : max ((a : ℕ) : ℚ) x = ((max a nx : ℕ) : ℚ) := by
      rw [hnx, Nat.cast_max]
    rw [List.foldl_cons, hmax]
    exact ih (fun q hq => hl q (List.mem_cons_of_mem _ hq)) (max a nx)

/-- Folding `min` over natural-valued rationals yields a natural value. -/
lemma foldl_min_natCast (l : List ℚ)
    (hl : ∀ q ∈ l, ∃ n : ℕ, q = (n : ℚ)) :
    ∀ a : ℕ, ∃ m : ℕ, l.foldl min ((a : ℕ) : ℚ) = ((m : ℕ) : ℚ) := by
  induction l with
  | nil => intro a; exact ⟨a, rfl⟩
  | cons x xs ih =>
    intro a
    obtain ⟨nx, hnx⟩ := hl x (List.mem_cons_self _ _)
    have hmin : min ((a : ℕ) : ℚ) x = ((min a nx : ℕ) : ℚ) := by
      rw [hnx, Nat.cast_min]
    rw [List.foldl_cons, hmin]
    exact ih (fun q hq => hl q (List.mem_cons_of_mem _ hq)) (min a nx)

/-- The maximum of a non-empty natural-valued column is natural. -/
lemma seriesMax_natCast (l : List ℚ) (hne : l ≠ [])
    (hl : ∀ q ∈ l, ∃ n : ℕ, q = (n : ℚ)) :
    ∃ m : ℕ, seriesMax l = ((m : ℕ) : ℚ) := by
  cases l with
  | nil => exact absurd rfl hne
  | cons x xs =>
    obtain ⟨nx, hnx⟩ := hl x (List.mem_cons_self _ _)
    simp only [seriesMax]
    rw [hnx]
    exact foldl_max_natCast xs (fun q hq => hl q (List.mem_cons_of_mem _ hq)) nx

/-- The minimum of a non-empty natural-valued column is natural. -/
lemma seriesMin_natCast (l : List ℚ) (hne : l ≠ [])
    (hl : ∀ q ∈ l, ∃ n : ℕ, q = (n : ℚ)) :
    ∃ m : ℕ, seriesMin l = ((m : ℕ) : ℚ) := by
  cases l with
  | nil => exact absurd rfl hne
  | cons x xs =>
    obtain ⟨nx, hnx⟩ := hl x (List.mem_cons_self _ _)
    simp only [seriesMin]
    rw [hnx]
    exact foldl_min_natCast xs (fun q hq => hl q (List.mem_cons_of_mem _ hq)) nx

/-- Python `int()` is the identity on natural values. -/
lemma pyInt_natCast (n : ℕ) : pyInt ((n : ℕ) : ℚ) = (n : ℤ) := by
  rw [pyInt, if_pos (by positivity)]
  exact_mod_cast Int.floor_natCast n

/-- When the range covers every record's payload and the site is the
`ALL` sentinel, the scatter filter is the identity. -/
lemma update_scatter_all_of_bounds (ds : List LaunchRecord) (low high : ℚ)
    (h : ∀ r ∈ ds, low ≤ r.payloadMassKg ∧ r.payloadMassKg ≤ high) :
    update_scatter ds "ALL" low high = ds := by
  simp only [update_scatter, ne_eq, not_true_eq_false, if_neg, ite_false,
    not_false_eq_true]
  apply List.filter_eq_self.2
  intro r hr
  rw [Bool.and_eq_true, decide_eq_true_eq, decide_eq_true_eq]
  exact h r hr

/-- A one-record dataset with a fractional payload mass, on which the
truncated bounds of source lines 20-21 lose the maximum. -/
def fractionalDf : List LaunchRecord :=
  [⟨"CCAFS LC-40", 1/2, 1, "v1.0"⟩]

/-- Counterexample to C5: with a fractional payload, `int()` truncates
the column maximum below the actual maximum, so filtering at the loader's
bounds `[min_payload, max_payload]` drops the record instead of returning
every record. -/
theorem payload_bounds_roundtrip_counterexample :
    update_scatter fractionalDf "ALL"
        ((min_payload fractionalDf : ℤ) : ℚ)
        ((max_payload fractionalDf : ℤ) : ℚ) ≠ fractionalDf := by
  have hmax : max_payload fractionalDf = 0 := by
    have hser : seriesMax (payloadSeries fractionalDf) = 1 / 2 := rfl
    rw [max_payload, hser, pyInt, if_pos (by norm_num)]
    norm_num
  have hmin : min_payload fractionalDf = 0 := by
    have hser : seriesMin (payloadSeries fractionalDf) = 1 / 2 := rfl
    rw [min_payload, hser, pyInt, if_pos (by norm_num)]
    norm_num
  rw [hmin, hmax]
  have hempty : update_scatter fractionalDf "ALL"
      (((0 : ℤ) : ℚ)) (((0 : ℤ) : ℚ)) = [] := by
    simp only [update_scatter, ne_eq, not_true_eq_false, if_false,
      List.filter_eq_nil_iff]
    intro r hr
    rcases List.mem_singleton.1 hr with rfl
    rw [Bool.and_eq_true, decide_eq_true_eq, decide_eq_true_eq]
    rintro ⟨-, hle⟩
    norm_num at hle
  rw [hempty]
  simp [fractionalDf]

/-- C5 as amended: for a non-empty dataset whose payload masses are whole
(natural) numbers — as in the shipped CSV — the loader's truncated bounds
are exact, and filtering the scatter data at `[min_payload, max_payload]`
returns every record. -/
theorem payload_bounds_roundtrip_integral (ds : List LaunchRecord)
    (hne : ds ≠ [])
    (hint : ∀ r ∈ ds, ∃ n : ℕ, r.payloadMassKg = (n : ℚ)) :
    update_scatter ds "ALL"
        ((min_payload ds : ℤ) : ℚ) ((max_payload ds : ℤ) : ℚ) = ds := by
  have hser : ∀ q ∈ payloadSeries ds, ∃ n : ℕ, q = (n : ℚ) := by
    intro q hq
    obtain ⟨r, hr, rfl⟩ := List.mem_map.1 hq
    exact hint r hr
  have hne2 : payloadSeries ds ≠ [] := by
    simp only [payloadSeries, ne_eq, List.map_eq_nil_iff]
    exact hne
  obtain ⟨M, hM⟩ := seriesMax_natCast _ hne2 hser
  obtain ⟨m, hm⟩ := seriesMin_natCast _ hne2 hser
  have hlow : ((min_payload ds : ℤ) : ℚ) = seriesMin (payloadSeries ds) := by
    rw [min_payload, hm, pyInt_natCast]
    push_cast
    rfl
  have hhigh : ((max_payload ds : ℤ) : ℚ) = seriesMax (payloadSeries ds) := by
    rw [max_payload, hM, pyInt_natCast]
    push_cast
    rfl
  apply update_scatter_all_of_bounds
  intro r hr
  have hmem : r.payloadMassKg ∈ payloadSeries ds :=
    List.mem_map.2 ⟨r, hr, rfl⟩
  exact ⟨hlow ▸ seriesMin_le _ _ hmem, hhigh ▸ le_seriesMax _ _ hmem⟩

/-- Witness for the amended C5 at a concrete integral dataset. -/
theorem payload_bounds_roundtrip_integral_witness :
    exampleDf ≠ [] ∧
    (∀ r ∈ exampleDf, ∃ n : ℕ, r.payloadMassKg = (n : ℚ)) ∧
    update_scatter exampleDf "ALL"
        ((min_payload exampleDf : ℤ) : ℚ)
        ((max_payload exampleDf : ℤ) : ℚ) = exampleDf :=
  ⟨by simp [exampleDf],
   by
    intro r hr
    fin_cases hr
    · exact ⟨500, by norm_num⟩
    · exact ⟨900, by norm_num⟩
    · exact ⟨500, by norm_num⟩,
   payload_bounds_roundtrip_integral exampleDf (by simp [exampleDf])
     (by
      intro r hr
      fin_cases hr
      · exact ⟨500, by norm_num⟩
      · exact ⟨900, by norm_num⟩
      · exact ⟨500, by norm_num⟩)⟩

/-- An inverted payload range satisfies no record, so the range filter
already empties the frame, whatever the site. -/
lemma update_scatter_eq_nil_of_lt (ds : List LaunchRecord) (site : String)
    (low high : ℚ) (h : high < low) :
    update_scatter ds site low high = [] := by
  have hnil : (ds.filter fun r =>
      decide (low ≤ r.payloadMassKg) && decide (r.payloadMassKg ≤ high)) = [] := by
    rw [List.filter_eq_nil_iff]
    intro r _
    rw [Bool.and_eq_true, decide_eq_true_eq, decide_eq_true_eq]
    rintro ⟨h1, h2⟩
    exact absurd (le_trans h1 h2) (not_le.2 h)
  simp only [update_scatter]
  rw [hnil]
  simp

/-- C10: calling the scatter filter with `low > high` raises no error and
returns the view model built over the empty record set. -/
theorem update_scatter_inverted_range_empty (ds : List LaunchRecord)
    (site : String) (low high : ℚ) (h : high < low) :
    update_scatter ds site low high = [] :=
  update_scatter_eq_nil_of_lt ds site low high h

/-- Witness for C10 at a concrete dataset and inverted range. -/
theorem update_scatter_inverted_range_empty_witness :
    (2 : ℚ) < 9 ∧ update_scatter exampleDf "KSC LC-39A" 9 2 = [] :=
  ⟨by norm_num,
   update_scatter_inverted_range_empty exampleDf "KSC LC-39A" 9 2
     (by norm_num)⟩

/-- Counterexample to C7: on invalid selections the callbacks neither
raise nor keep the previous view model — they silently compute a fresh
one. An inverted range yields an empty scatter view model, an unknown
site yields an empty pie, while the previous valid selection's view model
was non-empty (so it was not left in place). -/
theorem invalid_selection_counterexample :
    update_scatter exampleDf "ALL" 5 3 = [] ∧
    update_pie exampleDf "Nonexistent Site" = [] ∧
    update_scatter exampleDf "ALL" 0 1000 = exampleDf := by
  exact ⟨by decide, rfl, by decide⟩

/-- C7 as amended: the interaction loop indeed never crashes — both
callbacks are total — but no `InvalidSelectionError` exists and the
previous view model is not retained: an inverted payload range produces
the empty scatter view model, and a site value outside the dataset's
sites (and distinct from the `ALL` sentinel) produces a pie with zero
groups. -/
theorem invalid_selection_behavior (ds : List LaunchRecord) (site : String)
    (low high : ℚ) :
    (high < low → update_scatter ds site low high = []) ∧
    (site ≠ "ALL" → (∀ r ∈ ds, r.launchSite ≠ site) →
      update_pie ds site = []) := by
  constructor
  · exact update_scatter_eq_nil_of_lt ds site low high
  · intro hs hnone
    rw [update_pie, if_neg hs]
    have hkeys : siteOutcomeKeys ds site = [] := by
      rw [siteOutcomeKeys]
      have hfil : (ds.filter fun r => r.launchSite == site) = [] := by
        rw [List.filter_eq_nil_iff]
        intro r hr
        rw [beq_iff_eq]
        exact hnone r hr
      rw [hfil]
      rfl
    rw [hkeys]
    rfl

/-- Witness for the amended C7 at a concrete invalid selection. -/
theorem invalid_selection_behavior_witness :
    (3 : ℚ) < 5 ∧ ("Nonexistent Site" : String) ≠ "ALL" ∧
    (∀ r ∈ exampleDf, r.launchSite ≠ "Nonexistent Site") ∧
    update_scatter exampleDf "Nonexistent Site" 5 3 = [] ∧
    update_pie exampleDf "Nonexistent Site" = [] :=
  ⟨by norm_num, by decide, by decide,
   (invalid_selection_behavior exampleDf "Nonexistent Site" 5 3).1
     (by norm_num),
   (invalid_selection_behavior exampleDf "Nonexistent Site" 5 3).2
     (by decide) (by decide)⟩

/-- One reactive recomputation, as the spec's
`onSelectionChanged(selection)` interface: both view models computed from
the dataset and the current selection. The pie callback's inputs (source
lines 315-318) do not include the payload slider, so the pie component
takes no range argument. -/
def onSelectionChanged (ds : List LaunchRecord) (site : String)
    (low high : ℚ) : List (String × Nat) × List LaunchRecord :=
  (update_pie ds site, update_scatter ds site low high)

/-- C8: the pie view model is a function of the site selection alone —
recomputing under any two payload ranges gives identical pie output,
because the payload range does not flow into the pie callback. -/
theorem pie_independent_of_payload_range (ds : List LaunchRecord)
    (site : String) (low1 high1 low2 high2 : ℚ) :
    (onSelectionChanged ds site low1 high1).1 =
      (onSelectionChanged ds site low2 high2).1 := rfl

/-- The process state: the dataset loaded once at startup, held in the
module-global `spacex_df`. -/
structure AppState where
  spacex_df : List LaunchRecord

/-- One user interaction: the callbacks read the global dataset and
return fresh figures. Neither callback assigns to `spacex_df`; the pandas
expressions used (boolean-mask selection, `groupby(...).size()`,
`reset_index`, adding a column to the freshly built group frame) allocate
new frames and leave the module-global untouched, so the interaction step
returns the state unchanged alongside the two view models. -/
def handleInteraction (st : AppState) (site : String) (low high : ℚ) :
    AppState × (List (String × Nat) × List LaunchRecord) :=
  (st, update_pie st.spacex_df site, update_scatter st.spacex_df site low high)

/-- C9: every recomputation leaves the loaded dataset unchanged — the
records, their order and their count after an interaction are those
loaded at startup. -/
theorem interaction_preserves_dataset (st : AppState) (site : String)
    (low high : ℚ) :
    (handleInteraction st site low high).1.spacex_df = st.spacex_df := rfl

/-- Concrete evaluation of the all-sites pie on the example dataset. -/
lemma update_pie_exampleDf_all :
    update_pie exampleDf "ALL" =
      [("CCAFS LC-40", 1), ("KSC LC-39A", 1)] := by
  rw [update_pie, if_pos rfl]
  have hdedup : (successSiteKeys exampleDf).dedup =
      ["KSC LC-39A", "CCAFS LC-40"] := by decide
  rw [groupSize, hdedup]
  rw [show List.insertionSort (fun a b : String => a ≤ b)
        ["KSC LC-39A", "CCAFS LC-40"] = ["CCAFS LC-40", "KSC LC-39A"] by
    simp only [List.insertionSort, List.orderedInsert,
      if_neg not_ksc_le_ccafs]]
  decide

/-- Witness for C2 at a concrete dataset and slice. -/
theorem update_pie_all_sum_witness :
    (("CCAFS LC-40", 1) ∈ update_pie exampleDf "ALL") ∧
    (((update_pie exampleDf "ALL").map Prod.snd).sum =
        exampleDf.countP fun r => r.outcomeClass == 1) ∧
    ((("CCAFS LC-40", 1) : String × Nat).2 =
        exampleDf.countP fun r =>
          r.launchSite == (("CCAFS LC-40", 1) : String × Nat).1 &&
            r.outcomeClass == 1) :=
  ⟨by rw [update_pie_exampleDf_all]; decide,
   (update_pie_all_sum exampleDf).1,
   (update_pie_all_sum exampleDf).2 _
     (by rw [update_pie_exampleDf_all]; decide)⟩
